import Mathlib

/-
Shallow embedding of the DX11Starter camera / transform / frame-loop core
(src/Camera.cpp, src/Game.cpp).

Modelling conventions:
* C++ float scalars are modelled as exact rationals; float literals are taken
  at their decimal values and float arithmetic is exact rational arithmetic.
* The DirectXMath matrix constructors XMMatrixLookToLH and
  XMMatrixPerspectiveFovLH are external library calls; they are modelled by
  records holding exactly the arguments the code passes them, since every
  property below concerns which arguments are supplied and when.
* Transform.cpp is not among the provided sources; Transform is modelled from
  the specification (section 4.1).  The trigonometry-dependent rotation of a
  vector by the current Euler orientation is taken as an explicit function
  parameter rotE, so every theorem holds for any realization of it.
* Transform carries a ghost log of the Rotate calls it has received, used to
  state properties about which Rotate calls Camera.Update issues.
-/

namespace DX11

/-- A 3-component vector of scalars (models DirectX::XMFLOAT3). -/
structure Vec3 where
  x : ℚ
  y : ℚ
  z : ℚ
  deriving DecidableEq

instance : Add Vec3 := ⟨fun a b => ⟨a.x + b.x, a.y + b.y, a.z + b.z⟩⟩

theorem Vec3.add_def (a b : Vec3) : a + b = ⟨a.x + b.x, a.y + b.y, a.z + b.z⟩ := rfl

/-- The float constant XM_PI of DirectXMath, at its decimal literal value. -/
def XM_PI : ℚ := 3.141592654

/-- XMConvertToRadians(10) = 10 * (XM_PI / 180), used by the entity animation. -/
def rad10 : ℚ := 10 * (XM_PI / 180)

/-- Truncation of a rational toward zero, the effect of the C++ conversion of a
float value to int (as in `int xDiff = mouseLookSpeed * input.GetMouseXDelta();`). -/
def ratTrunc (q : ℚ) : ℤ := if 0 ≤ q then ⌊q⌋ else ⌈q⌉

/-- Modelled from the spec (4.1, Transform.cpp is not among the sources):
position, Euler rotation (x = pitch, y = yaw, z = roll) and scale of one
object, plus a ghost log of the Rotate calls received. -/
structure Transform where
  position : Vec3
  rotation : Vec3
  scale : Vec3
  rotateLog : List Vec3
  deriving DecidableEq

/-- Modelled from the spec: a default-constructed Transform has zero position
and rotation and unit scale. -/
def Transform.init : Transform := ⟨⟨0, 0, 0⟩, ⟨0, 0, 0⟩, ⟨1, 1, 1⟩, []⟩

/-- Modelled from the spec (4.1): SetPosition overwrites the absolute position. -/
def Transform.setPosition (t : Transform) (x y z : ℚ) : Transform :=
  { t with position := ⟨x, y, z⟩ }

/-- Modelled from the spec (4.1): MoveAbsolute adds a world-space delta. -/
def Transform.moveAbsolute (t : Transform) (d : Vec3) : Transform :=
  { t with position := t.position + d }

/-- Modelled from the spec (4.1): MoveRelative rotates the delta by the current
orientation (the rotation function rotE is a parameter) before adding it. -/
def Transform.moveRelative (t : Transform) (rotE : Vec3 → Vec3 → Vec3) (d : Vec3) : Transform :=
  { t with position := t.position + rotE t.rotation d }

/-- Modelled from the spec (4.1): Rotate accumulates Euler-angle deltas, with no
clamping.  The call is also recorded in the ghost log. -/
def Transform.rotate (t : Transform) (d : Vec3) : Transform :=
  { t with rotation := t.rotation + d, rotateLog := t.rotateLog ++ [d] }

/-- Modelled from the spec (4.1): Scale is multiplicative, componentwise. -/
def Transform.scaleBy (t : Transform) (s : Vec3) : Transform :=
  { t with scale := ⟨t.scale.x * s.x, t.scale.y * s.y, t.scale.z * s.z⟩ }

/-- Modelled from the spec (4.1): GetForward is derived from the current
rotation; with rotE the Euler rotation function, it rotates the +Z unit vector. -/
def Transform.forward (t : Transform) (rotE : Vec3 → Vec3 → Vec3) : Vec3 :=
  rotE t.rotation ⟨0, 0, 1⟩

/-- The arguments the code passes to XMMatrixLookToLH in
Camera::UpdateViewMatrix (src/Camera.cpp lines 60-70). -/
structure ViewSpec where
  position : Vec3
  direction : Vec3
  up : Vec3
  deriving DecidableEq

/-- The arguments the code passes to XMMatrixPerspectiveFovLH in
Camera::UpdateProjectionMatrix (src/Camera.cpp lines 72-82). -/
structure ProjSpec where
  fovAngle : ℚ
  aspect : ℚ
  nearClip : ℚ
  farClip : ℚ
  deriving DecidableEq

/-- Camera (src/Camera.h fields as used by src/Camera.cpp).  The source field
aspectRatio is named aspect here. -/
structure Camera where
  moveSpeed : ℚ
  mouseLookSpeed : ℚ
  fov : ℚ
  aspect : ℚ
  nearP : ℚ
  farP : ℚ
  transform : Transform
  viewMatrix : ViewSpec
  projectionMatrix : ProjSpec
  deriving DecidableEq

/-- Camera::UpdateViewMatrix (src/Camera.cpp lines 60-70): stores the look-to
view built from the transform's position, its forward vector and up = (0,1,0). -/
def Camera.updateViewMatrix (rotE : Vec3 → Vec3 → Vec3) (c : Camera) : Camera :=
  { c with viewMatrix := ⟨c.transform.position, c.transform.forward rotE, ⟨0, 1, 0⟩⟩ }

/-- Camera::UpdateProjectionMatrix (src/Camera.cpp lines 72-82): stores the
perspective projection built from the stored fov, the argument aspect ratio and
the literals 0.01 (near clip dist) and 1000.0 (far clip dist). -/
def Camera.updateProjectionMatrix (c : Camera) (aspectRatio2 : ℚ) : Camera :=
  { c with projectionMatrix := ⟨c.fov, aspectRatio2, 1/100, 1000⟩ }

/-- Camera::Camera (src/Camera.cpp lines 6-26): stores the scalar parameters,
sets nearP = 0.1f and farP = 1000, default-constructs the transform and sets its
position, then updates the view matrix and the projection matrix. -/
def mkCamera (rotE : Vec3 → Vec3 → Vec3) (x y z moveSpeed mouseLookSpeed fov aspectRatio2 : ℚ) :
    Camera :=
  let c : Camera :=
    { moveSpeed := moveSpeed
      mouseLookSpeed := mouseLookSpeed
      fov := fov
      aspect := aspectRatio2
      nearP := 1/10
      farP := 1000
      transform := Transform.init.setPosition x y z
      viewMatrix := ⟨⟨0, 0, 0⟩, ⟨0, 0, 0⟩, ⟨0, 0, 0⟩⟩
      projectionMatrix := ⟨0, 0, 0, 0⟩ }
  (c.updateViewMatrix rotE).updateProjectionMatrix aspectRatio2

/-- Camera::GetFov (src/Camera.cpp lines 99-102). -/
def Camera.getFov (c : Camera) : ℚ := c.fov

/-- The per-frame input snapshot the code polls (Input collaborator, spec 6). -/
structure InputState where
  keyW : Bool
  keyA : Bool
  keyS : Bool
  keyD : Bool
  keyQ : Bool
  keyE : Bool
  mouseLeft : Bool
  mouseXDelta : ℤ
  mouseYDelta : ℤ
  keyCPress : Bool
  changeCameraClicked : Bool
  deriving DecidableEq

/-- One `if (input.KeyDown(k)) { transform.MoveRelative(d); }` line of
Camera::Update (src/Camera.cpp lines 43-48). -/
def moveStep (rotE : Vec3 → Vec3 → Vec3) (b : Bool) (d : Vec3) (t : Transform) : Transform :=
  if b then t.moveRelative rotE d else t

/-- The `if (input.MouseLeftDown()) { ... }` block of Camera::Update
(src/Camera.cpp lines 50-55): the diffs are declared `int`, so the float
products mouseLookSpeed * cursor delta are truncated toward zero before being
scaled by dt; the Rotate call receives (yDiff * dt, xDiff * dt, 0). -/
def mouseStep (ls : ℚ) (b : Bool) (xd yd : ℤ) (dt : ℚ) (t : Transform) : Transform :=
  if b then
    let xDiff : ℤ := ratTrunc (ls * (xd : ℚ))
    let yDiff : ℤ := ratTrunc (ls * (yd : ℚ))
    t.rotate ⟨(yDiff : ℚ) * dt, (xDiff : ℚ) * dt, 0⟩
  else t

/-- Camera::Update (src/Camera.cpp lines 32-58): WASDQE movement via
MoveRelative scaled by moveSpeed * dt, then the mouse-look block, then
UpdateViewMatrix. -/
def Camera.update (rotE : Vec3 → Vec3 → Vec3) (c : Camera) (i : InputState) (dt : ℚ) : Camera :=
  let t := c.transform
  let t := moveStep rotE i.keyW ⟨0, 0, c.moveSpeed * dt⟩ t
  let t := moveStep rotE i.keyA ⟨-(c.moveSpeed * dt), 0, 0⟩ t
  let t := moveStep rotE i.keyS ⟨0, 0, -(c.moveSpeed * dt)⟩ t
  let t := moveStep rotE i.keyD ⟨c.moveSpeed * dt, 0, 0⟩ t
  let t := moveStep rotE i.keyQ ⟨0, c.moveSpeed * dt, 0⟩ t
  let t := moveStep rotE i.keyE ⟨0, -(c.moveSpeed * dt), 0⟩ t
  let t := mouseStep c.mouseLookSpeed i.mouseLeft i.mouseXDelta i.mouseYDelta dt t
  Camera.updateViewMatrix rotE { c with transform := t }

/-- The phases of one frame that the claims order. -/
inductive FrameEvent where
  | entityAnimate : FrameEvent
  | cameraUpdate : FrameEvent
  | drawEntity : Fin 5 → ℤ → FrameEvent
  | present : FrameEvent
  deriving DecidableEq, BEq

/-- The camera-switch operation both switch sites perform
(src/Game.cpp lines 272 and 277): activeCamera = (activeCamera + 1) % 3, with
the C++ int remainder (truncated division). -/
def switchCamera (v : ℤ) : ℤ := (v + 1).tmod 3

/-- The active-camera index after the UI button and the C-key checks of one
Game::Update (the button check at line 271 precedes the key check at line 276). -/
def postSwitch (i : InputState) (v : ℤ) : ℤ :=
  let a0 := if i.changeCameraClicked then switchCamera v else v
  if i.keyCPress then switchCamera a0 else a0

/-- Indexing the 3-element camera array by an int, as `camera[activeCamera]`
does: defined exactly when the index is in bounds. -/
def camIdx? (v : ℤ) : Option (Fin 3) :=
  if h : 0 ≤ v ∧ v < 3 then some ⟨v.toNat, by omega⟩ else none

/-- Game state (src/Game.h fields used by src/Game.cpp): the active camera
index (a C++ int), the 3 cameras, the 5 entity transforms, the animation
direction flag and the window size. -/
structure GameState where
  activeCamera : ℤ
  cameras : Fin 3 → Camera
  shapes : Fin 5 → Transform
  going : Bool
  windowWidth : ℤ
  windowHeight : ℤ

/-- The entity-animation block of Game::Update (src/Game.cpp lines 281-308):
bounce shapes 0 and 4 along the diagonal driven by the going flag, scale shape
2 up or down, rotate shapes 3 and 1 by dt * XMConvertToRadians(10) about z. -/
def animateShapes (shapes : Fin 5 → Transform) (going : Bool) (dt : ℚ) :
    (Fin 5 → Transform) × Bool :=
  let x0 := (shapes 0).position.x
  let step1 : (Fin 5 → Transform) × Bool :=
    if x0 ≤ 1 ∧ going = true then
      (Function.update (Function.update shapes 0 ((shapes 0).moveAbsolute ⟨1/1000, 1/1000, 0⟩))
        4 ((shapes 4).moveAbsolute ⟨-1/1000, -1/1000, 0⟩), going)
    else if x0 > 0 then
      (Function.update (Function.update shapes 0 ((shapes 0).moveAbsolute ⟨-1/1000, -1/1000, 0⟩))
        4 ((shapes 4).moveAbsolute ⟨1/1000, 1/1000, 0⟩), false)
    else (shapes, true)
  let s := step1.1
  let going2 := step1.2
  let s :=
    if going2 = false then Function.update s 2 ((s 2).scaleBy ⟨999/1000, 999/1000, 1⟩)
    else Function.update s 2 ((s 2).scaleBy ⟨1001/1000, 1001/1000, 1⟩)
  let s := Function.update s 3 ((s 3).rotate ⟨0, 0, dt * rad10⟩)
  let s := Function.update s 1 ((s 1).rotate ⟨0, 0, dt * rad10⟩)
  (s, going2)

/-- The state produced by one Game::Update once the camera index k to advance
is known: switched active index, animated shapes and flag, camera k advanced. -/
def GameState.updateCore (rotE : Vec3 → Vec3 → Vec3) (g : GameState) (i : InputState) (dt : ℚ)
    (k : Fin 3) : GameState :=
  { g with
    activeCamera := postSwitch i g.activeCamera
    shapes := (animateShapes g.shapes g.going dt).1
    going := (animateShapes g.shapes g.going dt).2
    cameras := Function.update g.cameras k ((g.cameras k).update rotE i dt) }

/-- Game::Update (src/Game.cpp lines 219-316): camera-switch handling (UI
button then C key), then the entity-animation block, then
`camera[activeCamera]->Update(deltaTime)` (none when that indexing is out of
bounds).  The returned events record the order of the two update phases. -/
def GameState.update (rotE : Vec3 → Vec3 → Vec3) (g : GameState) (i : InputState) (dt : ℚ) :
    Option (GameState × List FrameEvent) :=
  (camIdx? (postSwitch i g.activeCamera)).map fun k =>
    (g.updateCore rotE i dt k, [FrameEvent.entityAnimate, FrameEvent.cameraUpdate])

/-- Game::Draw (src/Game.cpp lines 321-358): each of the 5 shapes is drawn
against `*camera[activeCamera]` in order, then the frame is presented. -/
def GameState.draw (g : GameState) : Option (List FrameEvent) :=
  (camIdx? g.activeCamera).map fun _ =>
    ((List.finRange 5).map fun j => FrameEvent.drawEntity j g.activeCamera) ++
      [FrameEvent.present]

/-- One frame of the loop: Game::Update then Game::Draw, with the combined
event trace. -/
def GameState.frame (rotE : Vec3 → Vec3 → Vec3) (g : GameState) (i : InputState) (dt : ℚ) :
    Option (GameState × List FrameEvent) :=
  (g.update rotE i dt).bind fun p =>
    (p.1.draw).map fun evs2 => (p.1, p.2 ++ evs2)

/-- Game::OnResize (src/Game.cpp lines 207-214): every one of the 3 cameras
gets its projection matrix recomputed with windowWidth / windowHeight. -/
def GameState.onResize (g : GameState) : GameState :=
  { g with
    cameras := fun k =>
      (g.cameras k).updateProjectionMatrix ((g.windowWidth : ℚ) / (g.windowHeight : ℚ)) }

/-- A concrete realization of the Euler rotation function, used to instantiate
theorems at concrete inputs. -/
def rotE0 : Vec3 → Vec3 → Vec3 := fun _ d => d

/-- The three cameras of Game::Init (src/Game.cpp lines 102-104), with
aspect ratio 1280 / 720 = 16 / 9. -/
def cam0 : Camera := mkCamera rotE0 10 0 (-10) 5 10 (XM_PI / 2) (16/9)

def cam1 : Camera := mkCamera rotE0 0 0 (-10) 5 10 (XM_PI / 3) (16/9)

def cam2 : Camera := mkCamera rotE0 (-10) 0 (-10) 5 10 (XM_PI / 4) (16/9)

/-- A concrete initial game state matching Game::Init. -/
def g0 : GameState :=
  { activeCamera := 0
    cameras := ![cam0, cam1, cam2]
    shapes := fun _ => Transform.init
    going := true
    windowWidth := 1280
    windowHeight := 720 }

/-- An input snapshot with nothing pressed. -/
def i0 : InputState :=
  { keyW := false, keyA := false, keyS := false, keyD := false, keyQ := false, keyE := false
    mouseLeft := false, mouseXDelta := 0, mouseYDelta := 0
    keyCPress := false, changeCameraClicked := false }

/-- An input snapshot with only the C key newly pressed. -/
def iC : InputState := { i0 with keyCPress := true }

/-- An input snapshot with only the debug-overlay Change Camera button clicked. -/
def iB : InputState := { i0 with changeCameraClicked := true }

/-- An input snapshot holding the left mouse button with a horizontal cursor
delta of 1. -/
def iEx : InputState := { i0 with mouseLeft := true, mouseXDelta := 1 }

/-- A camera whose mouseLookSpeed 1/2 makes the int truncation in
Camera::Update visible. -/
def cEx : Camera := mkCamera rotE0 0 0 0 5 (1/2) 1 1

/-- The event trace of one concrete frame from the initial state. -/
def frameTrace0 : List FrameEvent :=
  ((GameState.frame rotE0 g0 i0 1).map Prod.snd).getD []

theorem moveStep_rotateLog (rotE : Vec3 → Vec3 → Vec3) (b : Bool) (d : Vec3) (t : Transform) :
    (moveStep rotE b d t).rotateLog = t.rotateLog := by
  cases b <;> rfl

theorem moveStep_rotation (rotE : Vec3 → Vec3 → Vec3) (b : Bool) (d : Vec3) (t : Transform) :
    (moveStep rotE b d t).rotation = t.rotation := by
  cases b <;> rfl

theorem mouseStep_rotateLog (ls : ℚ) (b : Bool) (xd yd : ℤ) (dt : ℚ) (t : Transform) :
    (mouseStep ls b xd yd dt t).rotateLog =
      t.rotateLog ++
        (if b then
            [⟨(ratTrunc (ls * (yd : ℚ)) : ℚ) * dt, (ratTrunc (ls * (xd : ℚ)) : ℚ) * dt, 0⟩]
          else []) := by
  cases b <;> simp [mouseStep, Transform.rotate]

theorem mouseStep_rotation_z (ls : ℚ) (b : Bool) (xd yd : ℤ) (dt : ℚ) (t : Transform) :
    (mouseStep ls b xd yd dt t).rotation.z = t.rotation.z := by
  cases b <;> simp [mouseStep, Transform.rotate, Vec3.add_def]

theorem switchCamera_bounds (v : ℤ) (h0 : 0 ≤ v) (h3 : v < 3) :
    0 ≤ switchCamera v ∧ switchCamera v < 3 := by
  unfold switchCamera
  interval_cases v <;> decide

theorem postSwitch_bounds (i : InputState) (v : ℤ) (h0 : 0 ≤ v) (h3 : v < 3) :
    0 ≤ postSwitch i v ∧ postSwitch i v < 3 := by
  simp only [postSwitch]
  split_ifs <;>
    first
      | exact ⟨h0, h3⟩
      | exact switchCamera_bounds _ h0 h3
      | exact switchCamera_bounds _ (switchCamera_bounds _ h0 h3).1 (switchCamera_bounds _ h0 h3).2

theorem camIdx?_pos (v : ℤ) (h0 : 0 ≤ v) (h3 : v < 3) :
    camIdx? v = some ⟨v.toNat, by omega⟩ := by
  unfold camIdx?
  rw [dif_pos ⟨h0, h3⟩]

theorem updateCore_activeCamera (rotE : Vec3 → Vec3 → Vec3) (g : GameState) (i : InputState)
    (dt : ℚ) (k : Fin 3) :
    (g.updateCore rotE i dt k).activeCamera = postSwitch i g.activeCamera := rfl

/-- C1 counterexample: for the first camera of Game::Init, the stored near clip
distance (0.1, set by the constructor) differs from the near clip distance the
projection matrix was built with (0.01, the literal in UpdateProjectionMatrix),
so the stored clip-plane values and the values used to build the matrix do not
agree. -/
theorem C1_stored_near_differs_from_matrix_near :
    (mkCamera rotE0 10 0 (-10) 5 10 (XM_PI / 2) (16/9)).nearP ≠
      (mkCamera rotE0 10 0 (-10) 5 10 (XM_PI / 2) (16/9)).projectionMatrix.nearClip := by
  show (1 : ℚ)/10 ≠ 1/100
  norm_num

/-- C1 (amended): for every Camera, the projection matrix is built with near
clip 0.01 and far clip 1000, and every UpdateProjectionMatrix(a) call rebuilds
the projection from the stored field-of-view together with the fixed literals
0.01 and 1000, leaving the stored clip planes untouched; the constructor stores
nearP = 0.1 and farP = 1000, so the stored far agrees with the matrix far but
the stored near does not agree with the matrix near; the near used is positive
and below the far used. -/
theorem C1_projection_clip_literals (rotE : Vec3 → Vec3 → Vec3) (x y z ms ls f a : ℚ) :
    (mkCamera rotE x y z ms ls f a).projectionMatrix = ⟨f, a, 1/100, 1000⟩ ∧
    (∀ (c : Camera) (a2 : ℚ),
        (c.updateProjectionMatrix a2).projectionMatrix = ⟨c.fov, a2, 1/100, 1000⟩ ∧
        (c.updateProjectionMatrix a2).nearP = c.nearP ∧
        (c.updateProjectionMatrix a2).farP = c.farP) ∧
    (mkCamera rotE x y z ms ls f a).nearP = 1/10 ∧
    (mkCamera rotE x y z ms ls f a).farP = 1000 ∧
    (0 : ℚ) < 1/100 ∧ (1 : ℚ)/100 < 1000 :=
  ⟨rfl, fun _ _ => ⟨rfl, rfl, rfl⟩, rfl, rfl, by norm_num, by norm_num⟩

/-- C3 counterexample: for a camera with mouseLookSpeed 1/2, the left button
held, a horizontal cursor delta of 1 and deltaTime 1, the single Rotate call
does not carry yaw delta mouseLookSpeed * horizontal delta * deltaTime = 1/2:
the source stores the products in int variables, truncating 1/2 to 0. -/
theorem C3_rotate_args_not_exact_products :
    (Camera.update rotE0 cEx iEx 1).transform.rotateLog ≠
      cEx.transform.rotateLog ++
        [⟨cEx.mouseLookSpeed * (iEx.mouseYDelta : ℚ) * 1,
          cEx.mouseLookSpeed * (iEx.mouseXDelta : ℚ) * 1, 0⟩] := by
  have hfl : ⌊(1 : ℚ)/2⌋ = 0 := by
    rw [Int.floor_eq_zero_iff]
    constructor <;> norm_num
  simp only [Camera.update, Camera.updateViewMatrix, cEx, iEx, i0, mkCamera,
    Transform.init, Transform.setPosition, Camera.updateProjectionMatrix,
    moveStep, mouseStep, Transform.rotate, ratTrunc]
  norm_num [hfl, Vec3.mk.injEq]

/-- C3 (amended): every Camera::Update(dt) call in which the left mouse button
is held issues exactly one Rotate call, whose pitch delta is dt times the
int-truncation of mouseLookSpeed * vertical cursor delta, whose yaw delta is dt
times the int-truncation of mouseLookSpeed * horizontal cursor delta, and whose
roll delta is 0; when the button is not held, no Rotate call occurs. -/
theorem C3_rotate_call_per_update (rotE : Vec3 → Vec3 → Vec3) (c : Camera) (i : InputState)
    (dt : ℚ) :
    (Camera.update rotE c i dt).transform.rotateLog =
      c.transform.rotateLog ++
        (if i.mouseLeft then
            [⟨(ratTrunc (c.mouseLookSpeed * (i.mouseYDelta : ℚ)) : ℚ) * dt,
              (ratTrunc (c.mouseLookSpeed * (i.mouseXDelta : ℚ)) : ℚ) * dt, 0⟩]
          else []) := by
  simp only [Camera.update, Camera.updateViewMatrix]
  simp [mouseStep_rotateLog, moveStep_rotateLog]

/-- C4: after every Camera::Update call, the stored view matrix is the look-to
view built from the transform's post-Update position and forward vector with
world up (0,1,0). -/
theorem C4_view_matrix_from_latest_transform (rotE : Vec3 → Vec3 → Vec3) (c : Camera)
    (i : InputState) (dt : ℚ) :
    (Camera.update rotE c i dt).viewMatrix =
      ⟨(Camera.update rotE c i dt).transform.position,
        (Camera.update rotE c i dt).transform.forward rotE, ⟨0, 1, 0⟩⟩ := rfl

/-- C6: Game::OnResize rebuilds the projection matrix of each of the 3 cameras
from that camera's stored field-of-view and the new aspect ratio
windowWidth / windowHeight. -/
theorem C6_resize_rebuilds_all_projections (g : GameState) (k : Fin 3) :
    ((g.onResize).cameras k).projectionMatrix =
      ⟨(g.cameras k).fov, (g.windowWidth : ℚ) / (g.windowHeight : ℚ), 1/100, 1000⟩ := rfl

/-- C7: UpdateProjectionMatrix never changes the stored field-of-view, so for a
camera constructed with fov XM_PI / 2 (at any position and aspect ratio),
GetFov after UpdateProjectionMatrix returns exactly XM_PI / 2. -/
theorem C7_getFov_preserved :
    (∀ (c : Camera) (a2 : ℚ), (c.updateProjectionMatrix a2).getFov = c.getFov) ∧
    (∀ (rotE : Vec3 → Vec3 → Vec3) (x y z ms ls a a2 : ℚ),
        ((mkCamera rotE x y z ms ls (XM_PI / 2) a).updateProjectionMatrix a2).getFov =
          XM_PI / 2) :=
  ⟨fun _ _ => rfl, fun _ _ _ _ _ _ _ _ => rfl⟩

/-- C8: calling UpdateProjectionMatrix twice with the same aspect ratio leaves
the camera in the same state as calling it once; in particular the stored
projection matrix is identical. -/
theorem C8_updateProjection_idempotent (c : Camera) (a : ℚ) :
    (c.updateProjectionMatrix a).updateProjectionMatrix a = c.updateProjectionMatrix a := rfl

/-- C10: Camera::Update never changes the roll component of the transform
rotation: the movement keys issue only MoveRelative calls and the mouse-look
Rotate call passes 0 for roll. -/
theorem C10_roll_preserved (rotE : Vec3 → Vec3 → Vec3) (c : Camera) (i : InputState) (dt : ℚ) :
    (Camera.update rotE c i dt).transform.rotation.z = c.transform.rotation.z := by
  simp only [Camera.update, Camera.updateViewMatrix]
  simp [mouseStep_rotation_z, moveStep_rotation]

/-- C2 counterexample: in the concrete frame run from the initial state, the
entity-animation phase comes first and the camera Update phase second, so the
camera is not advanced before the scripted entity transforms as claimed. -/
theorem C2_camera_not_advanced_first :
    frameTrace0 =
      [FrameEvent.entityAnimate, FrameEvent.cameraUpdate,
        FrameEvent.drawEntity 0 0, FrameEvent.drawEntity 1 0, FrameEvent.drawEntity 2 0,
        FrameEvent.drawEntity 3 0, FrameEvent.drawEntity 4 0, FrameEvent.present] ∧
    ¬ (frameTrace0.indexOf FrameEvent.cameraUpdate <
        frameTrace0.indexOf FrameEvent.entityAnimate) := by
  decide

/-- C2 (amended): in every frame whose active-camera index is in bounds, the
phases occur in this order: first the scripted/animated entity transforms are
advanced, then the camera is advanced via Update, then each of the 5 entities
is drawn in order against the currently active camera, then the frame is
presented. -/
theorem C2_frame_phase_order (rotE : Vec3 → Vec3 → Vec3) (g : GameState) (i : InputState)
    (dt : ℚ) (h0 : 0 ≤ g.activeCamera) (h3 : g.activeCamera < 3) :
    ∃ g2, GameState.frame rotE g i dt =
      some (g2,
        [FrameEvent.entityAnimate, FrameEvent.cameraUpdate] ++
          ((List.finRange 5).map fun j => FrameEvent.drawEntity j g2.activeCamera) ++
          [FrameEvent.present]) := by
  obtain ⟨hb0, hb3⟩ := postSwitch_bounds i g.activeCamera h0 h3
  obtain ⟨k, hk⟩ : ∃ k, camIdx? (postSwitch i g.activeCamera) = some k :=
    ⟨_, camIdx?_pos _ hb0 hb3⟩
  refine ⟨g.updateCore rotE i dt k, ?_⟩
  have hupd : g.update rotE i dt =
      some (g.updateCore rotE i dt k, [FrameEvent.entityAnimate, FrameEvent.cameraUpdate]) := by
    unfold GameState.update
    rw [hk]
    rfl
  have hdraw : (g.updateCore rotE i dt k).draw =
      some (((List.finRange 5).map fun j =>
          FrameEvent.drawEntity j (g.updateCore rotE i dt k).activeCamera) ++
        [FrameEvent.present]) := by
    unfold GameState.draw
    rw [updateCore_activeCamera, hk]
    rfl
  unfold GameState.frame
  rw [hupd]
  simp [hdraw, List.append_assoc]

/-- Witness for C2 at the concrete initial state, nothing-pressed input and
deltaTime 1. -/
theorem C2_frame_phase_order_witness :
    ((0 : ℤ) ≤ g0.activeCamera ∧ g0.activeCamera < 3) ∧
    ∃ g2, GameState.frame rotE0 g0 i0 1 =
      some (g2,
        [FrameEvent.entityAnimate, FrameEvent.cameraUpdate] ++
          ((List.finRange 5).map fun j => FrameEvent.drawEntity j g2.activeCamera) ++
          [FrameEvent.present]) :=
  ⟨⟨by decide, by decide⟩, C2_frame_phase_order rotE0 g0 i0 1 (by decide) (by decide)⟩

/-- C5: each camera-switch operation (the C key press handler and the debug
overlay button handler each running alone) maps the active-camera index v to
(v + 1) mod 3, and three consecutive switch operations from index 0 return to
index 0. -/
theorem C5_switch_cycles :
    (∀ (rotE : Vec3 → Vec3 → Vec3) (g : GameState) (dt : ℚ) (i : InputState),
        i.keyCPress = true → i.changeCameraClicked = false →
        0 ≤ g.activeCamera → g.activeCamera < 3 →
        ((GameState.update rotE g i dt).map fun p => p.1.activeCamera) =
          some ((g.activeCamera + 1).tmod 3)) ∧
    (∀ (rotE : Vec3 → Vec3 → Vec3) (g : GameState) (dt : ℚ) (i : InputState),
        i.changeCameraClicked = true → i.keyCPress = false →
        0 ≤ g.activeCamera → g.activeCamera < 3 →
        ((GameState.update rotE g i dt).map fun p => p.1.activeCamera) =
          some ((g.activeCamera + 1).tmod 3)) ∧
    switchCamera (switchCamera (switchCamera 0)) = 0 := by
  refine ⟨?_, ?_, by decide⟩
  · intro rotE g dt i hC hB h0 h3
    have hps : postSwitch i g.activeCamera = switchCamera g.activeCamera := by
      simp [postSwitch, hC, hB]
    have hb := switchCamera_bounds g.activeCamera h0 h3
    unfold GameState.update
    rw [hps, camIdx?_pos _ hb.1 hb.2]
    simp [updateCore_activeCamera, hps, switchCamera]
  · intro rotE g dt i hB hC h0 h3
    have hps : postSwitch i g.activeCamera = switchCamera g.activeCamera := by
      simp [postSwitch, hC, hB]
    have hb := switchCamera_bounds g.activeCamera h0 h3
    unfold GameState.update
    rw [hps, camIdx?_pos _ hb.1 hb.2]
    simp [updateCore_activeCamera, hps, switchCamera]

/-- Witness for C5 at the concrete initial state with only the C key pressed. -/
theorem C5_switch_cycles_witness :
    (iC.keyCPress = true ∧ iC.changeCameraClicked = false ∧
      (0 : ℤ) ≤ g0.activeCamera ∧ g0.activeCamera < 3) ∧
    ((GameState.update rotE0 g0 iC 1).map fun p => p.1.activeCamera) =
      some ((g0.activeCamera + 1).tmod 3) :=
  ⟨⟨rfl, rfl, by decide, by decide⟩,
    C5_switch_cycles.1 rotE0 g0 1 iC rfl rfl (by decide) (by decide)⟩

/-- C9: from an active-camera index in 0..2, one Game::Update succeeds (its
indexing of the 3-camera array is in bounds), leaves the index in 0..2, and the
following Draw's indexing of the camera array is in bounds as well. -/
theorem C9_active_index_invariant (rotE : Vec3 → Vec3 → Vec3) (g : GameState) (i : InputState)
    (dt : ℚ) (h0 : 0 ≤ g.activeCamera) (h3 : g.activeCamera < 3) :
    ∃ p, GameState.update rotE g i dt = some p ∧
      0 ≤ p.1.activeCamera ∧ p.1.activeCamera < 3 ∧ (p.1.draw).isSome = true := by
  obtain ⟨hb0, hb3⟩ := postSwitch_bounds i g.activeCamera h0 h3
  obtain ⟨k, hk⟩ : ∃ k, camIdx? (postSwitch i g.activeCamera) = some k :=
    ⟨_, camIdx?_pos _ hb0 hb3⟩
  refine ⟨(g.updateCore rotE i dt k, [FrameEvent.entityAnimate, FrameEvent.cameraUpdate]),
    ?_, hb0, hb3, ?_⟩
  · unfold GameState.update
    rw [hk]
    rfl
  · have hso : ((g.updateCore rotE i dt k).draw).isSome = true := by
      unfold GameState.draw
      rw [updateCore_activeCamera, hk]
      rfl
    exact hso

/-- Witness for C9 at the concrete initial state. -/
theorem C9_active_index_invariant_witness :
    ((0 : ℤ) ≤ g0.activeCamera ∧ g0.activeCamera < 3) ∧
    ∃ p, GameState.update rotE0 g0 i0 1 = some p ∧
      0 ≤ p.1.activeCamera ∧ p.1.activeCamera < 3 ∧ (p.1.draw).isSome = true :=
  ⟨⟨by decide, by decide⟩, C9_active_index_invariant rotE0 g0 i0 1 (by decide) (by decide)⟩

end DX11
